import Mathlib

/-!
Shallow embedding of the "AI services" core of the ExoVision repository:

* `src/src/ai-services/ExoplanetClassifier.js`
* `src/src/SpectroscopyAI.jsx`
* `src/src/ai-services/PredictiveAnalytics.js`

JavaScript numbers are modelled as exact rationals (`ℚ`).  The
transcendental library functions (`Math.exp`, `Math.log`, `Math.tanh`,
`Math.sin`) are taken as explicit function parameters of type `ℚ → ℚ`;
theorems assume only the properties of those functions that they need
(positivity, monotonicity).  `Number.prototype.toFixed(n)` followed by
a numeric coercion, as well as `Math.round`, round half-up, which is
exactly Lean's `round`.
-/

namespace ExoVision

/-- Model of a JavaScript value sitting in a numeric field of a planet
record, described by its `Number(·)` coercion together with its display
string (used by template literals).  `missing` is `undefined`, `null` is
the JS `null`, `nan tag` is any value whose numeric coercion is `NaN`
(the tag is its display string, e.g. `"abc"`), and `num q` is an actual
number. -/
inductive NumField where
  | missing : NumField
  | null : NumField
  | nan (tag : String) : NumField
  | num (q : ℚ) : NumField
  deriving DecidableEq

/-- Model of the JS value in the `atmosphere` field: `absent` covers every
falsy value (`undefined`, `null`, `false`, `0`, `NaN`, `""`), `str s` is a
truthy string (the code never relies on `str ""` being truthy: every use
re-tests emptiness), and `other tag` is a truthy non-string value with
display string `tag`. -/
inductive Atmo where
  | absent : Atmo
  | str (s : String) : Atmo
  | other (tag : String) : Atmo
  deriving DecidableEq

/-- A planet record as consumed by the three services. -/
structure Planet where
  name : Option String := none
  mass : NumField := .missing
  radius : NumField := .missing
  temperature : NumField := .missing
  orbital_period : NumField := .missing
  distance : NumField := .missing
  follow_up_observations : NumField := .missing
  ai_confidence : NumField := .missing
  habitability_score : NumField := .missing
  discovery_year : NumField := .missing
  atmosphere : Atmo := .absent
  confirmed_status : Option String := none
  discovery_method : Option String := none
  discovery_telescope : Option String := none
  deriving DecidableEq

/-- JS `Number(v) || d`: the numeric coercion with fallback `d` on every
falsy coercion result (`NaN`, `0`; `Number(null) = 0` is also falsy). -/
def jsNumOr (v : NumField) (d : ℚ) : ℚ :=
  match v with
  | .num q => if q = 0 then d else q
  | _ => d

/-- JS `s || d` for an optional string (falsy = missing or `""`). -/
def jsStrOr (o : Option String) (d : String) : String :=
  match o with
  | some s => if s = "" then d else s
  | none => d

/-- Display string of a numeric field, as a JS template literal produces it. -/
def numFieldStr (v : NumField) : String :=
  match v with
  | .missing => "undefined"
  | .null => "null"
  | .nan tag => tag
  | .num q => toString q

/-- JS `atmosphere || 'na'` stringified. -/
def atmoStr (a : Atmo) : String :=
  match a with
  | .absent => "na"
  | .str s => if s = "" then "na" else s
  | .other tag => tag

/-- Truthiness of the atmosphere value. -/
def atmoTruthy (a : Atmo) : Bool :=
  match a with
  | .absent => false
  | .str s => s != ""
  | .other _ => true

/-- JS `s.toLowerCase().includes('h2o')`. -/
def containsH2O (s : String) : Bool :=
  (s.toLower.splitOn "h2o").length != 1

/-- `(+x.toFixed(n))`: round half-up to `n` decimal places. -/
def roundTo (n : ℕ) (q : ℚ) : ℚ :=
  ((round (q * 10 ^ n) : ℤ) : ℚ) / 10 ^ n

/-- Stable insertion of a keyed value into a descending-by-value list:
the element goes after every element whose value is `≥` its own.  This is
the (unique) stable descending order that `Array.prototype.sort` with
comparator `(a, b) => b[1] - a[1]` produces. -/
def insertDesc (x : String × ℚ) : List (String × ℚ) → List (String × ℚ)
  | [] => [x]
  | y :: ys => if x.2 ≤ y.2 then y :: insertDesc x ys else x :: y :: ys

/-- Stable sort, descending by value. -/
def sortDesc (l : List (String × ℚ)) : List (String × ℚ) :=
  l.foldl (fun acc x => insertDesc x acc) []

/-- Stable insertion into an ascending list of rationals (JS numeric sort
`(a, b) => a - b`; used only where ties are interchangeable values). -/
def insertAsc (x : ℚ) : List ℚ → List ℚ
  | [] => [x]
  | y :: ys => if y ≤ x then y :: insertAsc x ys else x :: y :: ys

/-- Sort a list of rationals ascending. -/
def sortAsc (l : List ℚ) : List ℚ :=
  l.foldl (fun acc x => insertAsc x acc) []

/-! ## ExoplanetClassifier -/

/-- The two `Math` functions the classifier uses. -/
structure JsMath where
  exp : ℚ → ℚ
  log : ℚ → ℚ

/-- Platt-style calibration coefficients. -/
structure Calib where
  a : ℚ
  b : ℚ
  deriving DecidableEq, Inhabited

/-- `_featureVector`'s output. -/
structure FeatureVec where
  mass : ℚ
  radius : ℚ
  temperature : ℚ
  orbital_period : ℚ
  distance : ℚ
  atmosphere : ℚ
  follow_up : ℚ
  ai_confidence : ℚ
  deriving DecidableEq, Inhabited

/-- `_hashPlanet`: the cache fingerprint
`name|mass|radius|temperature|atmosphere`. -/
def hashPlanet (p : Planet) : String :=
  jsStrOr p.name "unknown" ++ "|" ++ numFieldStr p.mass ++ "|" ++
    numFieldStr p.radius ++ "|" ++ numFieldStr p.temperature ++ "|" ++
    atmoStr p.atmosphere

/-- `_featureVector`: numeric coercion with documented defaults, plus the
atmosphere-presence flag `(atmosphere && atmosphere !== 'Unknown') ? 1 : 0`. -/
def featureVector (p : Planet) : FeatureVec :=
  { mass := jsNumOr p.mass 1
    radius := jsNumOr p.radius 1
    temperature := jsNumOr p.temperature 288
    orbital_period := jsNumOr p.orbital_period 365
    distance := jsNumOr p.distance 100
    atmosphere :=
      match p.atmosphere with
      | .absent => 0
      | .str s => if s = "" then 0 else if s = "Unknown" then 0 else 1
      | .other _ => 1
    follow_up := jsNumOr p.follow_up_observations 0
    ai_confidence := jsNumOr p.ai_confidence (3 / 4) }

/-- The `'Ocean World'` base score
`(atmosphere && atmosphere.toLowerCase().includes('h2o') ? 0.35 : 0.02)`:
on a truthy non-string value `.toLowerCase` is `undefined` and the call
raises a `TypeError`, modelled as `Except.error`. -/
def oceanBase (a : Atmo) : Except Unit ℚ :=
  match a with
  | .absent => .ok 0.02
  | .str s =>
      if s = "" then .ok 0.02
      else .ok (if containsH2O s then 0.35 else 0.02)
  | .other _ => .error ()

/-- The nine unnormalized base scores, in source (= label) order. -/
def baseScores (f : FeatureVec) (ocean : ℚ) : List (String × ℚ) :=
  [("Terrestrial", max 0 (0.6 - |f.mass - 1| * 0.12 - |f.radius - 1| * 0.08)),
   ("Super Earth", max 0 (0.25 + (if f.mass > 1.5 then 0.15 else 0) +
      (if f.radius > 1.2 then 0.1 else 0))),
   ("Mini-Neptune", max 0 (0.12 + (if f.radius > 1.8 then 0.12 else 0))),
   ("Gas Giant", max 0 ((if f.mass > 15 then 0.7 else 0.05) +
      (if f.radius > 3 then 0.2 else 0))),
   ("Hot Jupiter", max 0 (if f.orbital_period < 10 then 0.4 else 0.01)),
   ("Ice Giant", max 0 (if f.temperature < 180 then 0.25 else 0.01)),
   ("Puffy Planet", max 0 (if f.mass < 10 ∧ f.radius > 6 then 0.2 else 0.01)),
   ("Ocean World", max 0 ocean),
   ("Desert World", max 0 (if f.temperature > 400 then 0.2 else 0.02))]

/-- `_calibrate`: clamp to `(1e-6, 1 - 1e-6)`, affine shift, logistic.
(The constructor guarantees `this.calibration` is set, so the `null`
short-circuit in the source is dead.) -/
def calibrate (jm : JsMath) (cal : Calib) (prob : ℚ) : ℚ :=
  let x := max (1 / 1000000) (min (1 - 1 / 1000000) prob)
  let z := cal.a * (x - 0.5) + cal.b
  1 / (1 + jm.exp (-z))

/-- `_explainFeatures`: heuristic importances, normalized and rounded. -/
def explainFeatures (jm : JsMath) (f : FeatureVec) : List (String × ℚ) :=
  let imp : List (String × ℚ) :=
    [("temperature", |0.5 - jm.exp (-(((f.temperature - 288) / 60) ^ 2))|),
     ("mass", |jm.log (max 0.1 f.mass) - jm.log 1|),
     ("distance", min 1 (f.distance / 500)),
     ("atmosphere", if f.atmosphere ≠ 0 then 0.1 else 0.02),
     ("follow_up", min 1 (f.follow_up / 20))]
  let s := (imp.map Prod.snd).sum
  let s := if s = 0 then 1 else s
  imp.map (fun e => (e.1, roundTo 3 (e.2 / s)))

/-- The explanation block of a classification result. -/
structure Explanation where
  features : FeatureVec
  importances : List (String × ℚ)
  topFactors : List (String × ℚ)
  deriving DecidableEq, Inhabited

/-- Model metadata attached to every result. -/
structure ModelMeta where
  engine : String
  labels : List String
  deriving DecidableEq, Inhabited

/-- A classification result. -/
structure CResult where
  predictedType : String
  probabilities : List (String × ℚ)
  confidence : ℚ
  explanation : Explanation
  modelMeta : ModelMeta
  deriving DecidableEq, Inhabited

/-- Normalize the base scores to raw probabilities
(`base[k] / sum`, guarding a zero sum with 1). -/
def rawProbs (base : List (String × ℚ)) : List (String × ℚ) :=
  base.map (fun e =>
    (e.1, e.2 / (if (base.map Prod.snd).sum = 0 then 1 else (base.map Prod.snd).sum)))

/-- Blend each raw probability with `ai_confidence`
(`raw * (0.6 + 0.4 * ai_confidence)`) and calibrate it. -/
def smoothedProbs (jm : JsMath) (cal : Calib) (aiConf : ℚ)
    (probsRaw : List (String × ℚ)) : List (String × ℚ) :=
  probsRaw.map (fun e => (e.1, calibrate jm cal (e.2 * (0.6 + 0.4 * aiConf))))

/-- Renormalize the calibrated values (guarding a zero sum with 1) and
round to 4 decimal places. -/
def normProbs (smoothed : List (String × ℚ)) : List (String × ℚ) :=
  smoothed.map (fun e =>
    (e.1, roundTo 4 (e.2 /
      (if (smoothed.map Prod.snd).sum = 0 then 1 else (smoothed.map Prod.snd).sum))))

/-- The cache-miss computation of `classifyPlanet` (everything between the
cache lookup and the cache write). -/
def classifyCompute (jm : JsMath) (cal : Calib) (labels : List String)
    (p : Planet) : Except Unit CResult := do
  let f := featureVector p
  let ocean ← oceanBase p.atmosphere
  let probs := normProbs (smoothedProbs jm cal f.ai_confidence
    (rawProbs (baseScores f ocean)))
  let entries := sortDesc probs
  let top := entries.headD ("", 0)
  let confidence := min 0.999 (0.45 + top.2 * 0.45 + (f.ai_confidence - 0.7) * 0.25)
  pure
    { predictedType := top.1
      probabilities := probs
      confidence := roundTo 3 confidence
      explanation :=
        { features := f
          importances := explainFeatures jm f
          topFactors := (entries.take 3).map (fun e => (e.1, roundTo 4 e.2)) }
      modelMeta := { engine := "heuristic-sim-v2", labels := labels } }

/-- The mutable state of an `ExoplanetClassifier` instance. -/
structure CState where
  modelLoaded : Bool
  calibration : Calib
  labels : List String
  cache : List (String × CResult)
  deriving DecidableEq, Inhabited

/-- The default label set of the constructor. -/
def defaultLabels : List String :=
  ["Terrestrial", "Super Earth", "Mini-Neptune", "Gas Giant", "Hot Jupiter",
   "Ice Giant", "Puffy Planet", "Ocean World", "Desert World"]

/-- A freshly-constructed classifier (empty cache, model not loaded). -/
def initClassifier (cal : Calib) (labels : List String) : CState :=
  { modelLoaded := false, calibration := cal, labels := labels, cache := [] }

/-- `classifyPlanet`: await `loadModel`, fingerprint, cache lookup, and on
miss the computation followed by the cache write. -/
def classifyPlanet (jm : JsMath) (st : CState) (p : Planet) :
    Except Unit (CResult × CState) :=
  let st := { st with modelLoaded := true }
  let key := hashPlanet p
  match st.cache.lookup key with
  | some r => .ok (r, st)
  | none =>
      match classifyCompute jm st.calibration st.labels p with
      | .error e => .error e
      | .ok r => .ok (r, { st with cache := (key, r) :: st.cache })

/-- `clearCache`: drop every cached result. -/
def clearCache (st : CState) : CState :=
  { st with cache := [] }

/-! ## SpectroscopyAI -/

/-- The `Math` functions the spectral analyzer uses. -/
structure SMath where
  tanh : ℚ → ℚ
  sin : ℚ → ℚ

/-- Configuration fields of a `SpectroscopyAI` instance
(defaults: `minSnrForDetection = 8`, `smoothingWindow = 7`, `polyOrder = 3`). -/
structure SConfig where
  minSnrForDetection : ℚ := 8
  smoothingWindow : ℕ := 7
  polyOrder : ℕ := 3

/-- One raw spectral sample `{wavelength, intensity, snr}`. -/
structure Sample where
  wavelength : ℚ
  intensity : ℚ
  snr : ℚ
  deriving DecidableEq

/-- A sample with its `intensity_smoothed` attached. -/
structure SSample where
  wavelength : ℚ
  intensity : ℚ
  snr : ℚ
  intensity_smoothed : ℚ
  deriving DecidableEq

/-- A sample with `continuum` and `intensity_norm` attached. -/
structure NSample where
  wavelength : ℚ
  intensity : ℚ
  snr : ℚ
  intensity_smoothed : ℚ
  continuum : ℚ
  intensity_norm : ℚ
  deriving DecidableEq

/-- `_moleculeWindows`: the static molecule → absorption-window table,
in source order. -/
def templateWindows : List (String × List (ℚ × ℚ)) :=
  [("H2O", [(590, 600), (650, 662), (720, 740), (940, 980)]),
   ("CO2", [(660, 672), (720, 740), (1400, 1600)]),
   ("CH4", [(530, 555), (780, 805), (1200, 1300)]),
   ("O2", [(687, 695), (760, 770)]),
   ("N2", [(516, 532)]),
   ("SO2", [(400, 430), (280, 320)]),
   ("NH3", [(645, 665), (1000, 1080)]),
   ("Na", [(588, 590)]),
   ("K", [(766, 770)]),
   ("O3", [(255, 320)])]

/-- `_savitzkyGolay`: below `window` points, copy the raw intensity;
otherwise a centered (edge-truncated) moving average over `window`
samples, rounded to 6 decimals.  The `order` parameter is accepted and
ignored, as in the source. -/
def savitzkyGolay (y : List Sample) (window : ℕ) (_order : ℕ) : List SSample :=
  if y.length < window then
    y.map (fun v => ⟨v.wavelength, v.intensity, v.snr, v.intensity⟩)
  else
    let half := window / 2
    (List.range y.length).map (fun idx =>
      let p := y.getD idx ⟨0, 0, 0⟩
      let start := idx - half
      let stop := min (y.length - 1) (idx + half)
      let slice := (y.drop start).take (stop + 1 - start)
      let avg := (slice.map Sample.intensity).sum / slice.length
      ⟨p.wavelength, p.intensity, p.snr, roundTo 6 avg⟩)

/-- `_continuumEnvelope` at one index: the 90th-percentile of the sorted
symmetric window of smoothed intensities, floored at `1e-6`. -/
def envelopeAt (data : List SSample) (window : ℕ) (i : ℕ) : ℚ :=
  let n := data.length
  let half := window / 2
  let start := i - half
  let stop := min (n - 1) (i + half)
  let slice := ((data.drop start).take (stop + 1 - start)).map SSample.intensity_smoothed
  let sorted := sortAsc slice
  max (1 / 1000000) (sorted.getD (slice.length * 9 / 10) 0)

/-- `_normalize`: divide each raw intensity by the local continuum
(window `max(11, ⌊n/20⌋ | 1)`, the `| 1` forcing the low bit). -/
def normalize (data : List SSample) : List NSample :=
  let n := data.length
  let window := max 11 ((n / 20) ||| 1)
  (List.range n).map (fun i =>
    let p := data.getD i ⟨0, 0, 0, 0⟩
    let env := envelopeAt data window i
    ⟨p.wavelength, p.intensity, p.snr, p.intensity_smoothed, env,
      roundTo 6 (p.intensity / env)⟩)

/-- `p.intensity_norm || p.intensity`: the normalized intensity with the
JS falsy fallback to the raw intensity. -/
def normVal (p : NSample) : ℚ :=
  if p.intensity_norm = 0 then p.intensity else p.intensity_norm

/-- `_equivalentWidth`: trapezoidal integral of `1 - min(1, norm)` over
wavelength, each segment floored at 0, rounded to 4 decimals. -/
def equivalentWidth (w : List NSample) : ℚ :=
  if w.length < 2 then 0
  else
    let segs := w.zip w.tail
    let ew := (segs.map (fun pq =>
      let y0 := 1 - min 1 (normVal pq.1)
      let y1 := 1 - min 1 (normVal pq.2)
      max 0 ((y0 + y1) / 2 * |pq.2.wavelength - pq.1.wavelength|))).sum
    roundTo 4 ew

/-- One per-window detection result. -/
structure DetRes where
  ew : ℚ
  meanSnr : ℚ
  absorptionFraction : ℚ
  detected : Bool
  points : ℕ
  deriving DecidableEq

/-- `_detectInRange`: restrict to the window, mean SNR, equivalent width,
absorption fraction, and the three-part detection test (which uses the
unrounded mean SNR and fraction). -/
def detectInRange (cfg : SConfig) (data : List NSample) (minW maxW : ℚ) :
    Option DetRes :=
  let w := data.filter (fun p => minW ≤ p.wavelength ∧ p.wavelength ≤ maxW)
  if w.length = 0 then none
  else
    let meanSnr := (w.map NSample.snr).sum / w.length
    let ew := equivalentWidth w
    let frac := ((w.filter (fun p => normVal p < 0.98)).length : ℚ) / w.length
    let det := decide (cfg.minSnrForDetection ≤ meanSnr) &&
      decide (ew > 0.01) && decide (frac > 0.06)
    some ⟨roundTo 4 ew, roundTo 2 meanSnr, roundTo 3 frac, det, w.length⟩

/-- A per-molecule template-match result. -/
structure MolMatch where
  detected : Bool
  confidence : ℚ
  windows : List DetRes
  deriving DecidableEq

/-- `_matchTemplates` for one molecule's window list. -/
def matchMolecule (m : SMath) (cfg : SConfig) (data : List NSample)
    (ranges : List (ℚ × ℚ)) : MolMatch :=
  let perRange := ranges.filterMap (fun r => detectInRange cfg data r.1 r.2)
  if perRange.length = 0 then ⟨false, 0, []⟩
  else
    let wins := (perRange.filter (fun p => p.detected)).length
    let sumEW := (perRange.map DetRes.ew).sum
    let avgSnr := (perRange.map DetRes.meanSnr).sum / perRange.length
    let confidence :=
      m.tanh ((wins * 0.8) + min 3 sumEW * 0.18 + min 1 (avgSnr / 50) * 0.4)
    let confidence :=
      if avgSnr < cfg.minSnrForDetection then confidence * 0.5 else confidence
    ⟨wins > 0, roundTo 3 confidence, perRange⟩

/-- `_matchTemplates` over the whole table, in table order. -/
def matchTemplates (m : SMath) (cfg : SConfig) (data : List NSample) :
    List (String × MolMatch) :=
  templateWindows.map (fun e => (e.1, matchMolecule m cfg data e.2))

/-- One entry of the `detectedMolecules` output list. -/
structure MolDet where
  molecule : String
  confidence : ℚ
  windows : List DetRes
  deriving DecidableEq

/-- The biosignature verdict. -/
structure Biosig where
  level : String
  reason : String
  deriving DecidableEq

/-- `Object.fromEntries(detectedMolecules.map(d => [d.molecule.toUpperCase(),
d.confidence]))[k]`: later entries overwrite earlier ones, so look up the
reversed list. -/
def presentLookup (dm : List MolDet) (k : String) : Option ℚ :=
  (dm.reverse.map (fun d => (d.molecule.toUpper, d.confidence))).lookup k

/-- `has(m)`: `present[m.toUpperCase()] && present[m.toUpperCase()] > 0.25`. -/
def hasMol (dm : List MolDet) (mol : String) : Bool :=
  match presentLookup dm mol.toUpper with
  | some c => decide (c ≠ 0) && decide (c > 0.25)
  | none => false

/-- The biosignature if-chain, in source precedence order. -/
def biosigOf (cfg : SConfig) (dm : List MolDet) (avgSnr : ℚ) : Biosig :=
  if hasMol dm "O2" && hasMol dm "CH4" then
    ⟨"High", "Possible disequilibrium (O2 + CH4)"⟩
  else if hasMol dm "H2O" && (hasMol dm "CO2" || hasMol dm "N2") then
    ⟨"Medium", "Water + major background gas detected"⟩
  else if dm.length ≥ 3 ∧ avgSnr > 12 then
    ⟨"Medium", "Multiple species with good S/N"⟩
  else if avgSnr < cfg.minSnrForDetection then
    ⟨"Low", "Low average S/N"⟩
  else
    ⟨"Low", "No clear biosignature pattern"⟩

/-- `suggestFollowUps` (called with the freshly built analysis, whose
`features` object is always present and holds the unrounded average SNR). -/
def suggestFollowUps (avgSnr : ℚ) (level : String) (p : Planet) : List String :=
  let recs : List String := []
  let recs := if avgSnr < 10 then
      recs ++ ["Increase exposure time to reach avg S/N > 15 or co-add more transits."]
    else recs
  let recs := if level = "High" then
      recs ++ ["Immediate multi-epoch high-resolution follow-up."]
    else recs
  let recs := recs ++ ["Observe reference stars to remove telluric features."]
  let distTruthy := match p.distance with
    | .num q => decide (q ≠ 0) && decide (q > 500)
    | _ => false
  if distTruthy then
    recs ++ ["Use space-based instruments (JWST) for highest sensitivity."]
  else recs

/-- The `features` sub-object of a spectroscopy result. -/
structure SFeatures where
  absorptionLines : ℕ
  avgSnr : ℚ
  spectralPoints : ℕ
  deriving DecidableEq

/-- A spectroscopy result.  The "no data" early return carries fewer
fields than the full result; the fields it omits are modelled as `none`
/ `[]`. -/
structure SpectroResult where
  detectedMolecules : List MolDet
  moleculeConfidences : List (String × ℚ)
  features : SFeatures
  biosignaturePotential : Biosig
  recommendations : List String
  confidence : ℚ
  summary : Option String
  syntheticModel : List (ℚ × ℚ)
  normalizedData : List NSample
  deriving DecidableEq

/-- The fixed "no data" result. -/
def noDataResult : SpectroResult :=
  { detectedMolecules := []
    moleculeConfidences := []
    features := { absorptionLines := 0, avgSnr := 0, spectralPoints := 0 }
    biosignaturePotential := { level := "Low", reason := "No data" }
    recommendations := []
    confidence := 0
    summary := none
    syntheticModel := []
    normalizedData := [] }

/-- The smoothed-and-normalized view of the input samples. -/
def normalizedOf (cfg : SConfig) (data : List Sample) : List NSample :=
  normalize (savitzkyGolay data cfg.smoothingWindow cfg.polyOrder)

/-- The unrounded average SNR over the normalized samples. -/
def avgSnrOf (nd : List NSample) : ℚ :=
  (nd.map NSample.snr).sum / nd.length

/-- The `detectedMolecules` list: molecules whose match is detected with
confidence `> 0.2`, in table order. -/
def detectedOf (m : SMath) (cfg : SConfig) (nd : List NSample) :
    List MolDet :=
  (matchTemplates m cfg nd).filterMap (fun e =>
    if e.2.detected && decide (e.2.confidence > 0.2) then
      some ⟨e.1, e.2.confidence, e.2.windows⟩
    else none)

/-- `analyzeSpectrum`.  The argument is `none` when the caller passes a
non-array value (`!Array.isArray(spectralData)`). -/
def analyzeSpectrum (m : SMath) (cfg : SConfig)
    (spectralData : Option (List Sample)) (p : Planet) : SpectroResult :=
  match spectralData with
  | none => noDataResult
  | some data =>
    if data.length = 0 then noDataResult
    else
      let normalized := normalizedOf cfg data
      let avgSnr := avgSnrOf normalized
      let absorptionCount := (normalized.filter (fun q => normVal q < 0.98)).length
      let detectedMolecules := detectedOf m cfg normalized
      let moleculeConfidences :=
        (matchTemplates m cfg normalized).map (fun e => (e.1, e.2.confidence))
      let biosig := biosigOf cfg detectedMolecules avgSnr
      let meanMolConf :=
        if detectedMolecules.length = 0 then 0
        else (detectedMolecules.map MolDet.confidence).sum / detectedMolecules.length
      let overall := min 0.999 (max 0.05 (0.2 * (avgSnr / 40) + 0.75 * meanMolConf))
      { detectedMolecules := detectedMolecules
        moleculeConfidences := moleculeConfidences
        features :=
          { absorptionLines := absorptionCount
            avgSnr := roundTo 2 avgSnr
            spectralPoints := normalized.length }
        biosignaturePotential := biosig
        recommendations := suggestFollowUps avgSnr biosig.level p
        confidence := roundTo 3 overall
        summary := some (toString detectedMolecules.length ++
          " molecule(s), avg S/N " ++ toString (roundTo 2 avgSnr) ++
          ", biosignature: " ++ biosig.level)
        syntheticModel := normalized.map (fun q =>
          (q.wavelength, roundTo 6 (q.intensity_norm + 0.01 * m.sin (q.wavelength / 10))))
        normalizedData := normalized }

/-! ## PredictiveAnalytics -/

/-- `Number(p.discovery_year) || new Date().getFullYear()`: the year bucket
of one record (`currentYear` models the wall-clock year). -/
def yearOf (currentYear : ℚ) (p : Planet) : ℚ :=
  jsNumOr p.discovery_year currentYear

/-- First-occurrence deduplication (JS object key insertion order). -/
def firstOccs (l : List String) : List String :=
  l.foldl (fun acc x => if x ∈ acc then acc else acc ++ [x]) []

/-- The sorted list of distinct discovery years
(`Object.keys(countsByYear).map(Number).sort((a,b) => a-b)`). -/
def yearsOf (currentYear : ℚ) (planets : List Planet) : List ℚ :=
  sortAsc ((planets.map (yearOf currentYear)).dedup)

/-- `years.slice(-timeWindowYears)` — note `slice(-0)` is `slice(0)`,
the whole array. -/
def recentYearsOf (tw : ℕ) (currentYear : ℚ) (planets : List Planet) : List ℚ :=
  let years := yearsOf currentYear planets
  if tw = 0 then years else years.drop (years.length - tw)

/-- The windowed year/count series. -/
def seriesOf (tw : ℕ) (currentYear : ℚ) (planets : List Planet) :
    List (ℚ × ℚ) :=
  (recentYearsOf tw currentYear planets).map
    (fun y => (y, ((planets.filter (fun p => yearOf currentYear p = y)).length : ℚ)))

/-- Single exponential smoothing (α = 0.4) across the windowed counts:
`last = series[0].count`, then `last = α·count + (1-α)·last`. -/
def esLevel (counts : List ℚ) : ℚ :=
  match counts with
  | [] => 0
  | c :: rest => rest.foldl (fun last x => 0.4 * x + 0.6 * last) c

/-- One forecast entry. -/
structure Forecast where
  year : ℚ
  predicted : ℤ
  deriving DecidableEq

/-- The key a planet's `discovery_method` (or `discovery_telescope`)
contributes to a JS object (`undefined` stringifies to `"undefined"`). -/
def jsKey (o : Option String) : String :=
  match o with
  | some s => s
  | none => "undefined"

/-- Frequency ranking of string keys, stable descending by count. -/
def rankByCount (keys : List String) : List (String × ℚ) :=
  sortDesc ((firstOccs keys).map (fun k => (k, ((keys.count k : ℕ) : ℚ))))

/-- The result of `analyzeDiscoveryPatterns`. -/
structure Patterns where
  series : List (ℚ × ℚ)
  forecasts : List Forecast
  methodRanking : List (String × ℚ)
  topTelescopes : List (String × ℚ)
  totalPlanets : ℕ
  recentGrowth : ℚ
  deriving DecidableEq

/-- `recentYears[recentYears.length - 1] || currentYear`: the last
windowed year with the JS falsy fallback to the wall-clock year. -/
def lastWindowedYear (tw : ℕ) (currentYear : ℚ) (planets : List Planet) : ℚ :=
  if (recentYearsOf tw currentYear planets).length = 0 ∨
      (recentYearsOf tw currentYear planets).getLastD 0 = 0 then currentYear
  else (recentYearsOf tw currentYear planets).getLastD 0

/-- The 3-step forecast loop: `base = α·base + (1-α)·base` then
`Math.round(base * (1 + k*0.03))` for `k = 1, 2, 3`. -/
def forecastsOf (tw : ℕ) (currentYear : ℚ) (planets : List Planet) :
    List Forecast :=
  (((List.range 3).foldl (fun acc k =>
      (acc.1 ++ [⟨lastWindowedYear tw currentYear planets + (k + 1 : ℕ),
        round ((0.4 * acc.2 + 0.6 * acc.2) * (1 + (k + 1 : ℕ) * 0.03))⟩],
        0.4 * acc.2 + 0.6 * acc.2))
    (([] : List Forecast),
      esLevel ((seriesOf tw currentYear planets).map Prod.snd)))).1

/-- `analyzeDiscoveryPatterns`: bucket by year, window, smooth, and
extrapolate 3 years with the `base = α·base + (1-α)·base` update and the
`(1 + k·0.03)` scaling; rank methods and telescopes (top 6). -/
def analyzeDiscoveryPatterns (tw : ℕ) (currentYear : ℚ)
    (planets : List Planet) : Patterns :=
  let series := seriesOf tw currentYear planets
  { series := series
    forecasts := forecastsOf tw currentYear planets
    methodRanking := rankByCount (planets.map (fun p => jsKey p.discovery_method))
    topTelescopes :=
      (rankByCount (planets.map (fun p => jsKey p.discovery_telescope))).take 6
    totalPlanets := planets.length
    recentGrowth :=
      if series.length > 1 then
        ((series.getLastD (0, 0)).2 - (series.headD (0, 0)).2) /
          max 1 (series.headD (0, 0)).2
      else 0 }

/-- `calculatePriorityScore`:
`clamp(0, 0.999, 0.5·habit + 0.2·aiConf + 0.1·min(1, followUps/20)
 + 0.08·exp(-min(1500, distance)/500) + novelty)`, rounded to 3 decimals.
`expf` models `Math.exp`. -/
def calculatePriorityScore (expf : ℚ → ℚ) (p : Planet) : ℚ :=
  let habitScore := jsNumOr p.habitability_score 0
  let aiConfidence := jsNumOr p.ai_confidence 0.7
  let followUps := min 1 (jsNumOr p.follow_up_observations 0 / 20)
  let distancePenalty := expf (-(min 1500 (jsNumOr p.distance 100)) / 500)
  let novelty : ℚ := if p.confirmed_status = some "Candidate" then 0.12 else 0
  let score := max 0 (min 0.999 (habitScore * 0.5 + aiConfidence * 0.2 +
    followUps * 0.1 + distancePenalty * 0.08 + novelty))
  roundTo 3 score

/-! ## Helper lemmas -/

theorem round_mono {q r : ℚ} (h : q ≤ r) : round q ≤ round r := by
  rw [round_eq, round_eq]
  exact Int.floor_le_floor (by linarith)

theorem roundTo_mono (n : ℕ) {q r : ℚ} (h : q ≤ r) : roundTo n q ≤ roundTo n r := by
  unfold roundTo
  have h10 : (0 : ℚ) < 10 ^ n := by positivity
  apply div_le_div_of_nonneg_right ?_ h10.le
  exact_mod_cast round_mono (by nlinarith)

theorem roundTo_nonneg (n : ℕ) {q : ℚ} (h : 0 ≤ q) : 0 ≤ roundTo n q := by
  have := roundTo_mono n h
  simpa [roundTo] using this

theorem roundTo_le_one (n : ℕ) {q : ℚ} (h : q ≤ 1) : roundTo n q ≤ 1 := by
  have h1 : roundTo n 1 = 1 := by
    unfold roundTo
    rw [show ((1 : ℚ) * 10 ^ n) = ((10 ^ n : ℤ) : ℚ) by push_cast; ring,
      round_intCast]
    field_simp
  calc roundTo n q ≤ roundTo n 1 := roundTo_mono n h
    _ = 1 := h1

theorem abs_roundTo_sub (n : ℕ) (q : ℚ) :
    |roundTo n q - q| ≤ 1 / (2 * 10 ^ n) := by
  unfold roundTo
  have h10 : (0 : ℚ) < 10 ^ n := by positivity
  have h := abs_sub_round (q * 10 ^ n)
  have heq : ((round (q * 10 ^ n) : ℤ) : ℚ) / 10 ^ n - q =
      -((q * 10 ^ n - (round (q * 10 ^ n) : ℤ)) / 10 ^ n) := by
    field_simp
    ring
  rw [heq, abs_neg, abs_div, abs_of_pos h10, div_le_div_iff h10 (by positivity)]
  nlinarith [abs_nonneg (q * 10 ^ n - ((round (q * 10 ^ n) : ℤ) : ℚ))]

theorem abs_sum_roundTo (n : ℕ) (l : List ℚ) :
    |(l.map (roundTo n)).sum - l.sum| ≤ l.length * (1 / (2 * 10 ^ n)) := by
  induction l with
  | nil => simp
  | cons a t ih =>
      have ha := abs_roundTo_sub n a
      have habs : |roundTo n a - a + ((t.map (roundTo n)).sum - t.sum)| ≤
          |roundTo n a - a| + |(t.map (roundTo n)).sum - t.sum| := abs_add _ _
      simp only [List.map_cons, List.sum_cons, List.length_cons]
      have hrw : roundTo n a + (t.map (roundTo n)).sum - (a + t.sum) =
          roundTo n a - a + ((t.map (roundTo n)).sum - t.sum) := by ring
      rw [hrw]
      push_cast
      calc |roundTo n a - a + ((t.map (roundTo n)).sum - t.sum)|
          ≤ |roundTo n a - a| + |(t.map (roundTo n)).sum - t.sum| := habs
        _ ≤ 1 / (2 * 10 ^ n) + t.length * (1 / (2 * 10 ^ n)) := by
            exact add_le_add ha ih
        _ = (t.length + 1) * (1 / (2 * 10 ^ n)) := by ring

theorem list_sum_div (l : List ℚ) (c : ℚ) :
    (l.map (fun x => x / c)).sum = l.sum / c := by
  induction l with
  | nil => simp
  | cons a t ih => simp [ih, add_div]

/-- Inserting below a larger-or-equal head keeps the head. -/
theorem insertDesc_cons_of_le (x y : String × ℚ) (ys : List (String × ℚ))
    (h : x.2 ≤ y.2) : insertDesc x (y :: ys) = y :: insertDesc x ys := by
  simp [insertDesc, h]

/-- Folding insertions of dominated elements keeps the accumulated head. -/
theorem foldl_insertDesc_head (l : List (String × ℚ)) (e : String × ℚ)
    (t : List (String × ℚ)) (h : ∀ x ∈ l, x.2 ≤ e.2) :
    l.foldl (fun acc x => insertDesc x acc) (e :: t) =
      e :: l.foldl (fun acc x => insertDesc x acc) t := by
  induction l generalizing t with
  | nil => rfl
  | cons a l ih =>
      simp only [List.foldl_cons]
      rw [insertDesc_cons_of_le a e t (h a (by simp))]
      exact ih (insertDesc a t) (fun x hx => h x (by simp [hx]))

/-- The head of the stable descending sort of `e :: l` is `e` whenever `e`
dominates every element of `l` (ties go to the earlier element). -/
theorem sortDesc_head_of_max (e : String × ℚ) (l : List (String × ℚ))
    (h : ∀ x ∈ l, x.2 ≤ e.2) :
    sortDesc (e :: l) = e :: l.foldl (fun acc x => insertDesc x acc) [] := by
  unfold sortDesc
  simp only [List.foldl_cons]
  exact foldl_insertDesc_head l e [] h

theorem mem_insertAsc {a x : ℚ} {l : List ℚ} :
    a ∈ insertAsc x l ↔ a = x ∨ a ∈ l := by
  induction l with
  | nil => simp [insertAsc]
  | cons y ys ih =>
      by_cases h : y ≤ x
      · simp only [insertAsc, if_pos h, List.mem_cons, ih]
        constructor
        · rintro (rfl | hh) <;> tauto
        · rintro (rfl | hh) <;> tauto
      · simp only [insertAsc, if_neg h, List.mem_cons]

theorem mem_foldl_insertAsc {a : ℚ} (l acc : List ℚ) :
    a ∈ l.foldl (fun acc x => insertAsc x acc) acc ↔ a ∈ acc ∨ a ∈ l := by
  induction l generalizing acc with
  | nil => simp
  | cons x xs ih =>
      simp only [List.foldl_cons, ih, mem_insertAsc, List.mem_cons]
      tauto

theorem mem_sortAsc {a : ℚ} {l : List ℚ} : a ∈ sortAsc l ↔ a ∈ l := by
  unfold sortAsc
  rw [mem_foldl_insertAsc]
  simp

theorem length_insertAsc (x : ℚ) (l : List ℚ) :
    (insertAsc x l).length = l.length + 1 := by
  induction l with
  | nil => rfl
  | cons y ys ih =>
      by_cases h : y ≤ x <;> simp [insertAsc, h, ih]

theorem length_foldl_insertAsc (l acc : List ℚ) :
    (l.foldl (fun acc x => insertAsc x acc) acc).length = acc.length + l.length := by
  induction l generalizing acc with
  | nil => rfl
  | cons x xs ih => simp [List.foldl_cons, ih, length_insertAsc]; ring

theorem length_sortAsc (l : List ℚ) : (sortAsc l).length = l.length := by
  unfold sortAsc
  rw [length_foldl_insertAsc]
  simp

theorem calibrate_pos (jm : JsMath) (cal : Calib) (x : ℚ)
    (hpos : ∀ y, 0 < jm.exp y) : 0 < calibrate jm cal x := by
  unfold calibrate
  have := hpos (-(cal.a * (max (1 / 1000000) (min (1 - 1 / 1000000) x) - 0.5) + cal.b))
  positivity

theorem calibrate_mono_of_unit (jm : JsMath) (hm : Monotone jm.exp)
    (hpos : ∀ y, 0 < jm.exp y) {x y : ℚ} (h : x ≤ y) :
    calibrate jm ⟨1, 0⟩ x ≤ calibrate jm ⟨1, 0⟩ y := by
  unfold calibrate
  simp only
  set cx := max (1 / 1000000) (min (1 - 1 / 1000000) x) with hcx
  set cy := max (1 / 1000000) (min (1 - 1 / 1000000) y) with hcy
  have hc : cx ≤ cy := max_le_max le_rfl (min_le_min le_rfl h)
  have hz : -(1 * (cy - 0.5) + 0) ≤ -(1 * (cx - 0.5) + 0) := by linarith
  have he := hm hz
  have hpx := hpos (-(1 * (cx - 0.5) + 0))
  have hpy := hpos (-(1 * (cy - 0.5) + 0))
  exact one_div_le_one_div_of_le (by linarith) (by linarith)

/-! ## Claim theorems -/

/-- C5: for every planet argument, `analyzeSpectrum` applied to an empty or
non-sequence `samples` argument returns the fixed "no data" result
(`detectedMolecules = []`, `moleculeConfidences = {}`, `confidence = 0`,
biosignature level `"Low"` with reason `"No data"`) and does not raise. -/
theorem analyzeSpectrum_empty_noData (m : SMath) (cfg : SConfig) (p : Planet)
    (d : Option (List Sample)) (h : d = none ∨ d = some []) :
    (analyzeSpectrum m cfg d p).detectedMolecules = [] ∧
    (analyzeSpectrum m cfg d p).moleculeConfidences = [] ∧
    (analyzeSpectrum m cfg d p).confidence = 0 ∧
    (analyzeSpectrum m cfg d p).biosignaturePotential =
      ⟨"Low", "No data"⟩ ∧
    analyzeSpectrum m cfg d p = noDataResult := by
  rcases h with rfl | rfl <;>
    simp [analyzeSpectrum, noDataResult]

theorem analyzeSpectrum_empty_noData_witness :
    (analyzeSpectrum ⟨fun x => x, fun _ => 0⟩ {} (some []) {}).confidence = 0 :=
  (analyzeSpectrum_empty_noData ⟨fun x => x, fun _ => 0⟩ {} {} (some [])
    (Or.inr rfl)).2.2.1

/-- C9: for every sample sequence with fewer points than the smoothing
window, the smoothing stage returns each point's smoothed intensity equal
to its raw intensity, leaving wavelengths, raw intensities and SNRs
unchanged. -/
theorem savitzkyGolay_small_input_id (y : List Sample) (window order : ℕ)
    (h : y.length < window) :
    (savitzkyGolay y window order).map SSample.intensity_smoothed =
      y.map Sample.intensity ∧
    (savitzkyGolay y window order).map SSample.wavelength =
      y.map Sample.wavelength ∧
    (savitzkyGolay y window order).map SSample.snr = y.map Sample.snr ∧
    (savitzkyGolay y window order).map SSample.intensity =
      y.map Sample.intensity := by
  simp [savitzkyGolay, h, List.map_map, Function.comp]

theorem savitzkyGolay_small_input_id_witness :
    (savitzkyGolay [⟨500, 2, 9⟩, ⟨510, 3, 11⟩] 7 3).map
        SSample.intensity_smoothed =
      ([⟨500, 2, 9⟩, ⟨510, 3, 11⟩] : List Sample).map Sample.intensity :=
  (savitzkyGolay_small_input_id [⟨500, 2, 9⟩, ⟨510, 3, 11⟩] 7 3 (by decide)).1

/-- C6: `calculatePriorityScore` is monotonically non-decreasing in a
numeric `habitability_score`, all other fields held fixed. -/
theorem calculatePriorityScore_monotone (expf : ℚ → ℚ) (p : Planet)
    (q1 q2 : ℚ) (h : q1 ≤ q2) :
    calculatePriorityScore expf { p with habitability_score := .num q1 } ≤
      calculatePriorityScore expf { p with habitability_score := .num q2 } := by
  have hnum : ∀ q : ℚ, jsNumOr (.num q) 0 = q := by
    intro q
    show (if q = 0 then 0 else q) = q
    split <;> simp_all
  unfold calculatePriorityScore
  simp only [hnum]
  apply roundTo_mono
  apply max_le_max le_rfl
  apply min_le_min le_rfl
  have : q1 * 0.5 ≤ q2 * 0.5 := by linarith
  linarith

theorem calculatePriorityScore_monotone_witness :
    calculatePriorityScore (fun _ => 1)
        { ({} : Planet) with habitability_score := .num 0.2 } ≤
      calculatePriorityScore (fun _ => 1)
        { ({} : Planet) with habitability_score := .num 0.8 } :=
  calculatePriorityScore_monotone (fun _ => 1) {} 0.2 0.8 (by norm_num)

/-- A call right after one that succeeded with the same fingerprint hits
the cache and returns the first call's result and state unchanged. -/
theorem classify_second_call (jm : JsMath) (st : CState) (p1 p2 : Planet)
    (r : CResult) (st1 : CState) (hh : hashPlanet p1 = hashPlanet p2)
    (h : classifyPlanet jm st p1 = .ok (r, st1)) :
    classifyPlanet jm st1 p2 = .ok (r, st1) := by
  obtain ⟨ml, cal, labs, cache⟩ := st
  simp only [classifyPlanet] at h ⊢
  rw [← hh]
  cases hl : cache.lookup (hashPlanet p1) with
  | some rc =>
      simp only [hl, Except.ok.injEq, Prod.mk.injEq] at h
      obtain ⟨rfl, rfl⟩ := h
      simp [hl]
  | none =>
      cases hc : classifyCompute jm cal labs p1 with
      | error e => simp [hl, hc] at h
      | ok rr =>
          simp only [hl, hc, Except.ok.injEq, Prod.mk.injEq] at h
          obtain ⟨rfl, rfl⟩ := h
          simp [List.lookup]

/-- C3: two successive `classifyPlanet` calls with the same fingerprint
return the identical result (the second is the cached value unchanged);
`clearCache` empties the cache and changes nothing else; and a call after
`clearCache` performs the fresh computation instead of reusing a cached
value. -/
theorem classifyPlanet_cache_idempotent (jm : JsMath) (st : CState)
    (p1 p2 : Planet) (r : CResult) (st1 : CState)
    (hh : hashPlanet p1 = hashPlanet p2)
    (h : classifyPlanet jm st p1 = .ok (r, st1)) :
    classifyPlanet jm st1 p2 = .ok (r, st1) ∧
    (clearCache st1).cache = [] ∧
    (clearCache st1).modelLoaded = st1.modelLoaded ∧
    (clearCache st1).calibration = st1.calibration ∧
    (clearCache st1).labels = st1.labels ∧
    classifyPlanet jm (clearCache st1) p2 =
      (classifyCompute jm st1.calibration st1.labels p2).map
        (fun rr => (rr, CState.mk true st1.calibration st1.labels
          [(hashPlanet p2, rr)])) := by
  refine ⟨classify_second_call jm st p1 p2 r st1 hh h, rfl, rfl, rfl, rfl, ?_⟩
  obtain ⟨ml, cal, labs, cache⟩ := st1
  simp only [classifyPlanet, clearCache]
  cases hc : classifyCompute jm cal labs p2 <;>
    simp [hc, List.lookup, Except.map]

/-- Concrete fixtures for the cache claims. -/
def c3jm : JsMath := { exp := fun _ => 1, log := fun _ => 0 }

def c3p : Planet :=
  { name := some "Kepler-22b", mass := .num 2, radius := .num 1.2,
    temperature := .num 280, atmosphere := .str "N2/CO2" }

def c3pair : CResult × CState :=
  match classifyPlanet c3jm (initClassifier ⟨1, 0⟩ defaultLabels) c3p with
  | .ok pr => pr
  | .error _ => default

theorem classifyPlanet_cache_idempotent_witness :
    classifyPlanet c3jm c3pair.2 c3p = .ok (c3pair.1, c3pair.2) :=
  (classifyPlanet_cache_idempotent c3jm (initClassifier ⟨1, 0⟩ defaultLabels)
    c3p c3p c3pair.1 c3pair.2 rfl (by rfl)).1

/-- C10: the fingerprint omits `orbital_period`, `distance`,
`follow_up_observations` and `ai_confidence`: two records agreeing on
name, mass, radius, temperature and atmosphere share a fingerprint, and
classifying the second right after the first returns the first record's
cached result unchanged, so the differing fields have no effect on the
second call's output. -/
theorem classifyPlanet_cache_key_blindness (jm : JsMath) (st : CState)
    (p1 p2 : Planet) (r : CResult) (st1 : CState)
    (hname : p1.name = p2.name) (hmass : p1.mass = p2.mass)
    (hradius : p1.radius = p2.radius)
    (htemp : p1.temperature = p2.temperature)
    (hatmo : p1.atmosphere = p2.atmosphere)
    (h : classifyPlanet jm st p1 = .ok (r, st1)) :
    hashPlanet p1 = hashPlanet p2 ∧
    classifyPlanet jm st1 p2 = .ok (r, st1) := by
  have hh : hashPlanet p1 = hashPlanet p2 := by
    unfold hashPlanet
    rw [hname, hmass, hradius, htemp, hatmo]
  exact ⟨hh, classify_second_call jm st p1 p2 r st1 hh h⟩

/-- Fixtures for the cache-key-blindness claim: the two records agree on
the five fingerprint fields and differ in all four omitted ones. -/
def c10p1 : Planet :=
  { name := some "HD 209458 b", mass := .num 220, radius := .num 1.4,
    temperature := .num 1449, atmosphere := .str "H2/He",
    orbital_period := .num (7/2), distance := .num 47,
    follow_up_observations := .num 12, ai_confidence := .num (9/10) }

def c10p2 : Planet :=
  { name := some "HD 209458 b", mass := .num 220, radius := .num 1.4,
    temperature := .num 1449, atmosphere := .str "H2/He",
    orbital_period := .num 800, distance := .num 900,
    follow_up_observations := .num 0, ai_confidence := .num (1/10) }

def c10pair : CResult × CState :=
  match classifyPlanet c3jm (initClassifier ⟨1, 0⟩ defaultLabels) c10p1 with
  | .ok pr => pr
  | .error _ => default

theorem classifyPlanet_cache_key_blindness_witness :
    classifyPlanet c3jm c10pair.2 c10p2 = .ok (c10pair.1, c10pair.2) :=
  (classifyPlanet_cache_key_blindness c3jm
    (initClassifier ⟨1, 0⟩ defaultLabels) c10p1 c10p2 c10pair.1 c10pair.2
    rfl rfl rfl rfl rfl (by rfl)).2

/-- A year bucket is never the (falsy) number 0 when the wall-clock year
is nonzero. -/
theorem yearOf_ne_zero {cy : ℚ} (hcy : cy ≠ 0) (p : Planet) :
    yearOf cy p ≠ 0 := by
  unfold yearOf jsNumOr
  cases p.discovery_year with
  | num q =>
      simp only
      split <;> simp_all
  | missing => exact hcy
  | null => exact hcy
  | nan t => exact hcy

theorem mem_getLastD (l : List ℚ) (a : ℚ) : l.getLastD a ∈ a :: l := by
  induction l generalizing a with
  | nil => simp
  | cons b t ih =>
      rw [List.getLastD_cons]
      rcases List.mem_cons.mp (ih b) with h | h
      · rw [h]
        exact List.mem_cons_of_mem a (List.mem_cons_self b t)
      · exact List.mem_cons_of_mem a (List.mem_cons_of_mem b h)

theorem getLastD_mem_of_ne_nil {l : List ℚ} (d : ℚ) (h : l ≠ []) :
    l.getLastD d ∈ l := by
  cases l with
  | nil => exact absurd rfl h
  | cons a t =>
      rw [List.getLastD_cons]
      exact mem_getLastD t a

theorem recentYearsOf_ne_nil (tw : ℕ) (cy : ℚ) {planets : List Planet}
    (hne : planets ≠ []) : recentYearsOf tw cy planets ≠ [] := by
  have hy : (yearsOf cy planets).length ≠ 0 := by
    unfold yearsOf
    rw [length_sortAsc]
    simp [List.dedup_eq_nil, hne]
  unfold recentYearsOf
  split
  · intro hc
    exact hy (by simp [yearsOf] at hc ⊢; simp [hc])
  · intro hc
    have := congrArg List.length hc
    rw [List.length_drop] at this
    simp at this
    omega

theorem mem_recentYears_ne_zero {tw : ℕ} {cy : ℚ} {planets : List Planet}
    (hcy : cy ≠ 0) {y : ℚ} (h : y ∈ recentYearsOf tw cy planets) : y ≠ 0 := by
  have hyrs : y ∈ yearsOf cy planets := by
    unfold recentYearsOf at h
    split at h
    · exact h
    · exact List.mem_of_mem_drop h
  unfold yearsOf at hyrs
  rw [mem_sortAsc, List.mem_dedup, List.mem_map] at hyrs
  obtain ⟨p, _, rfl⟩ := hyrs
  exact yearOf_ne_zero hcy p

/-- C8: for every non-empty history, `analyzeDiscoveryPatterns` returns
exactly 3 forecast entries with years `lastWindowedYear + 1, +2, +3` and
predicted counts `round(L * (1 + k*0.03))` for `k = 1, 2, 3`, where `L`
is the exponential-smoothing (α = 0.4) level of the trailing windowed
year-count series: the repeated self-smoothing `base = α·base + (1-α)·base`
leaves the baseline unchanged, so only the `(1 + k*0.03)` scaling varies. -/
theorem analyzeDiscoveryPatterns_forecasts (tw : ℕ) (cy : ℚ)
    (planets : List Planet) (hne : planets ≠ []) (hcy : cy ≠ 0) :
    (analyzeDiscoveryPatterns tw cy planets).forecasts =
      [⟨(recentYearsOf tw cy planets).getLastD 0 + 1,
        round (esLevel ((seriesOf tw cy planets).map Prod.snd) * 1.03)⟩,
       ⟨(recentYearsOf tw cy planets).getLastD 0 + 2,
        round (esLevel ((seriesOf tw cy planets).map Prod.snd) * 1.06)⟩,
       ⟨(recentYearsOf tw cy planets).getLastD 0 + 3,
        round (esLevel ((seriesOf tw cy planets).map Prod.snd) * 1.09)⟩] := by
  have hry := recentYearsOf_ne_nil tw cy hne
  have hlast : (recentYearsOf tw cy planets).getLastD 0 ≠ 0 :=
    mem_recentYears_ne_zero hcy (getLastD_mem_of_ne_nil 0 hry)
  have hcond : ¬((recentYearsOf tw cy planets).length = 0 ∨
      (recentYearsOf tw cy planets).getLastD 0 = 0) := by
    push_neg
    exact ⟨fun hc => hry (List.length_eq_zero.mp hc), hlast⟩
  show forecastsOf tw cy planets = _
  unfold forecastsOf
  rw [show List.range 3 = [0, 1, 2] from rfl]
  simp only [List.foldl_cons, List.foldl_nil, List.nil_append,
    List.singleton_append, List.cons_append, List.nil_append]
  rw [show lastWindowedYear tw cy planets =
      (recentYearsOf tw cy planets).getLastD 0 from by
    unfold lastWindowedYear
    exact if_neg hcond]
  refine congrArg₂ _ ?_ (congrArg₂ _ ?_ (congrArg₂ _ ?_ rfl)) <;>
    refine congrArg₂ Forecast.mk ?_ (congrArg _ ?_) <;> push_cast <;> ring

/-- Fixture history for the forecast claim. -/
def c8planets : List Planet :=
  [{ discovery_year := .num 2019 }, { discovery_year := .num 2019 },
   { discovery_year := .num 2020 }, { discovery_year := .num 2022 }]

theorem analyzeDiscoveryPatterns_forecasts_witness :
    (analyzeDiscoveryPatterns 10 2025 c8planets).forecasts =
      [⟨(recentYearsOf 10 2025 c8planets).getLastD 0 + 1,
        round (esLevel ((seriesOf 10 2025 c8planets).map Prod.snd) * 1.03)⟩,
       ⟨(recentYearsOf 10 2025 c8planets).getLastD 0 + 2,
        round (esLevel ((seriesOf 10 2025 c8planets).map Prod.snd) * 1.06)⟩,
       ⟨(recentYearsOf 10 2025 c8planets).getLastD 0 + 3,
        round (esLevel ((seriesOf 10 2025 c8planets).map Prod.snd) * 1.09)⟩] :=
  analyzeDiscoveryPatterns_forecasts 10 2025 c8planets (by decide) (by norm_num)

/-- Does the atmosphere field hold a value on which the classifier cannot
crash (anything but a truthy non-string)? -/
def atmoOk (a : Atmo) : Bool :=
  match a with
  | .other _ => false
  | _ => true

/-- Is the JS numeric coercion of the field falsy (missing, `null`,
non-numeric, or `0`), so that the `|| default` fallback fires? -/
def numFalsy (v : NumField) : Bool :=
  match v with
  | .num q => q == 0
  | _ => true

/-- C4 counterexample: on a record whose `atmosphere` is a truthy
non-string value (here a number, display string `"42"`), `classifyPlanet`
raises a `TypeError` from `planet.atmosphere.toLowerCase()` instead of
returning a result — the claim's "never raises" does not hold for
non-string atmospheres. -/
theorem classifyPlanet_raises_on_nonstring_atmosphere :
    classifyPlanet ⟨fun _ => 1, fun _ => 0⟩
      (initClassifier ⟨1, 0⟩ defaultLabels)
      { atmosphere := .other "42" } = .error () := by
  rfl

/-- C4 (amended): for every record whose `atmosphere` is a string, null or
absent (not a truthy non-string), `classifyPlanet` never raises — it
returns a result — and every invalid, missing, or non-numeric numeric
field is silently replaced by the documented default
(mass=1, radius=1, temperature=288, orbital_period=365, distance=100,
follow_up=0, ai_confidence=0.75). -/
theorem classifyPlanet_total_of_atmoOk (jm : JsMath) (st : CState)
    (p : Planet) (h : atmoOk p.atmosphere = true) :
    (classifyPlanet jm st p).isOk = true ∧
    (numFalsy p.mass = true → (featureVector p).mass = 1) ∧
    (numFalsy p.radius = true → (featureVector p).radius = 1) ∧
    (numFalsy p.temperature = true → (featureVector p).temperature = 288) ∧
    (numFalsy p.orbital_period = true →
      (featureVector p).orbital_period = 365) ∧
    (numFalsy p.distance = true → (featureVector p).distance = 100) ∧
    (numFalsy p.follow_up_observations = true →
      (featureVector p).follow_up = 0) ∧
    (numFalsy p.ai_confidence = true →
      (featureVector p).ai_confidence = 0.75) := by
  have hdef : ∀ (v : NumField) (d : ℚ), numFalsy v = true → jsNumOr v d = d := by
    intro v d hv
    cases v with
    | num q =>
        have : q = 0 := by simpa [numFalsy] using hv
        simp [jsNumOr, this]
    | missing => rfl
    | null => rfl
    | nan t => rfl
  refine ⟨?_, fun hv => hdef _ _ hv, fun hv => hdef _ _ hv,
    fun hv => hdef _ _ hv, fun hv => hdef _ _ hv, fun hv => hdef _ _ hv,
    fun hv => hdef _ _ hv, by intro hv; show jsNumOr _ _ = _; rw [hdef _ _ hv]; norm_num⟩
  have hocean : ∃ q, oceanBase p.atmosphere = .ok q := by
    cases ha : p.atmosphere with
    | absent => exact ⟨0.02, rfl⟩
    | str s =>
        unfold oceanBase
        by_cases hs : s = ""
        · exact ⟨0.02, by simp [hs]⟩
        · exact ⟨if containsH2O s then 0.35 else 0.02, by simp [hs]⟩
    | other t => simp [atmoOk, ha] at h
  obtain ⟨q, hq⟩ := hocean
  obtain ⟨ml, cal, labs, cache⟩ := st
  simp only [classifyPlanet]
  cases hl : cache.lookup (hashPlanet p) with
  | some r => simp [hl, Except.isOk, Except.toBool]
  | none =>
      have hc : ∃ r, classifyCompute jm cal labs p = .ok r := by
        unfold classifyCompute
        rw [hq]
        exact ⟨_, rfl⟩
      obtain ⟨r, hr⟩ := hc
      simp [hl, hr, Except.isOk, Except.toBool]

theorem classifyPlanet_total_of_atmoOk_witness :
    (classifyPlanet ⟨fun _ => 1, fun _ => 0⟩
      (initClassifier ⟨1, 0⟩ defaultLabels)
      { mass := .nan "abc", distance := .null, ai_confidence := .num 0,
        atmosphere := .str "CO2" }).isOk = true :=
  (classifyPlanet_total_of_atmoOk ⟨fun _ => 1, fun _ => 0⟩
    (initClassifier ⟨1, 0⟩ defaultLabels)
    { mass := .nan "abc", distance := .null, ai_confidence := .num 0,
      atmosphere := .str "CO2" } rfl).1

/-- Keys survive the three probability stages. -/
theorem normProbs_map_fst (l : List (String × ℚ)) :
    (normProbs l).map Prod.fst = l.map Prod.fst := by
  simp [normProbs, List.map_map, Function.comp]

theorem smoothedProbs_map_fst (jm : JsMath) (cal : Calib) (a : ℚ)
    (l : List (String × ℚ)) :
    (smoothedProbs jm cal a l).map Prod.fst = l.map Prod.fst := by
  simp [smoothedProbs, List.map_map, Function.comp]

theorem rawProbs_map_fst (l : List (String × ℚ)) :
    (rawProbs l).map Prod.fst = l.map Prod.fst := by
  simp [rawProbs, List.map_map, Function.comp]

/-- Every value of the calibrated stage is positive when `exp` is
positive-valued. -/
theorem smoothedProbs_pos (jm : JsMath) (cal : Calib) (a : ℚ)
    (l : List (String × ℚ)) (hpos : ∀ y, 0 < jm.exp y) :
    ∀ e ∈ smoothedProbs jm cal a l, 0 < e.2 := by
  intro e he
  obtain ⟨x, _, rfl⟩ := List.mem_map.mp he
  exact calibrate_pos jm cal _ hpos

/-- The renormalize-and-round stage: every value lies in `[0, 1]` and the
values sum to 1 up to the accumulated rounding error. -/
theorem normProbs_bounds (l : List (String × ℚ)) (hne : l ≠ [])
    (hpos : ∀ e ∈ l, 0 < e.2) :
    (∀ e ∈ normProbs l, 0 ≤ e.2 ∧ e.2 ≤ 1) ∧
    |((normProbs l).map Prod.snd).sum - 1| ≤ l.length * (1 / 20000) := by
  have hmpos : ∀ x ∈ l.map Prod.snd, 0 < x := by
    intro x hx
    obtain ⟨e, he, rfl⟩ := List.mem_map.mp hx
    exact hpos e he
  have hS : 0 < (l.map Prod.snd).sum :=
    List.sum_pos _ hmpos (by simpa [List.map_eq_nil] using hne)
  have hif : (if (l.map Prod.snd).sum = 0 then 1 else (l.map Prod.snd).sum) =
      (l.map Prod.snd).sum := if_neg hS.ne'
  constructor
  · intro e he
    obtain ⟨x, hx, rfl⟩ := List.mem_map.mp he
    rw [hif]
    constructor
    · exact roundTo_nonneg 4 (div_nonneg (hpos x hx).le hS.le)
    · refine roundTo_le_one 4 ((div_le_one hS).mpr ?_)
      exact List.single_le_sum (fun y hy => (hmpos y hy).le) _
        (List.mem_map_of_mem Prod.snd hx)
  · have hmap : (normProbs l).map Prod.snd =
        ((l.map Prod.snd).map
          (fun x => x / (l.map Prod.snd).sum)).map (roundTo 4) := by
      simp [normProbs, hif, List.map_map, Function.comp]
    have hsum1 : ((l.map Prod.snd).map
        (fun x => x / (l.map Prod.snd).sum)).sum = 1 := by
      rw [list_sum_div]
      exact div_self hS.ne'
    have hlen : ((l.map Prod.snd).map
        (fun x => x / (l.map Prod.snd).sum)).length = l.length := by
      simp
    have := abs_sum_roundTo 4
      ((l.map Prod.snd).map (fun x => x / (l.map Prod.snd).sum))
    rw [hsum1, hlen] at this
    rw [hmap]
    calc |(((l.map Prod.snd).map
          (fun x => x / (l.map Prod.snd).sum)).map (roundTo 4)).sum - 1|
        ≤ l.length * (1 / (2 * 10 ^ 4)) := this
      _ = l.length * (1 / 20000) := by norm_num

/-- On success, `classifyCompute` returns exactly the record built from
the probability stages. -/
theorem classifyCompute_ok (jm : JsMath) (cal : Calib) (labels : List String)
    (p : Planet) (r : CResult)
    (h : classifyCompute jm cal labels p = .ok r) :
    ∃ ocean, oceanBase p.atmosphere = .ok ocean ∧
      r.probabilities = normProbs (smoothedProbs jm cal
        (featureVector p).ai_confidence
        (rawProbs (baseScores (featureVector p) ocean))) ∧
      r.confidence = roundTo 3 (min 0.999 (0.45 +
        ((sortDesc r.probabilities).headD ("", 0)).2 * 0.45 +
        ((featureVector p).ai_confidence - 0.7) * 0.25)) ∧
      r.predictedType = ((sortDesc r.probabilities).headD ("", 0)).1 := by
  cases ho : oceanBase p.atmosphere with
  | error e =>
      rw [classifyCompute] at h
      rw [ho] at h
      simp [Except.bind] at h
  | ok ocean =>
      refine ⟨ocean, rfl, ?_⟩
      rw [classifyCompute] at h
      rw [ho] at h
      simp only [Except.bind, bind, pure, Except.pure, Except.ok.injEq] at h
      subst h
      exact ⟨rfl, rfl, rfl⟩

/-- `classifyPlanet` on a fresh instance succeeds exactly when the
computation does, and returns its result. -/
theorem classifyPlanet_fresh (jm : JsMath) (cal : Calib)
    (labels : List String) (p : Planet) (r : CResult) (st' : CState)
    (h : classifyPlanet jm (initClassifier cal labels) p = .ok (r, st')) :
    classifyCompute jm cal labels p = .ok r := by
  simp only [classifyPlanet, initClassifier, List.lookup] at h
  cases hk : classifyCompute jm cal labels p with
  | error e => rw [hk] at h; simp at h
  | ok rr =>
      rw [hk] at h
      simp only [Except.ok.injEq, Prod.mk.injEq] at h
      rw [h.1]

/-- C1: for every planet record (on a fresh classifier instance, any
calibration, any positive-valued `Math.exp`), a successful
`classifyPlanet` returns a probabilities map over the nine labels whose
values all lie in `[0, 1]` and sum to 1 within `1e-3`, and a confidence
value that, whenever it is `≥ 0`, is `≤ 0.999` (in fact always `≤ 0.999`). -/
theorem classifyPlanet_probabilities_valid (jm : JsMath) (cal : Calib)
    (labels : List String) (p : Planet) (r : CResult) (st' : CState)
    (hpos : ∀ x, 0 < jm.exp x)
    (h : classifyPlanet jm (initClassifier cal labels) p = .ok (r, st')) :
    r.probabilities.map Prod.fst = defaultLabels ∧
    (∀ e ∈ r.probabilities, 0 ≤ e.2 ∧ e.2 ≤ 1) ∧
    |(r.probabilities.map Prod.snd).sum - 1| ≤ 1 / 1000 ∧
    (0 ≤ r.confidence → r.confidence ≤ 0.999) := by
  obtain ⟨ocean, _, hprobs, hconf, _⟩ :=
    classifyCompute_ok jm cal labels p r (classifyPlanet_fresh _ _ _ _ _ _ h)
  have hlen : (smoothedProbs jm cal (featureVector p).ai_confidence
      (rawProbs (baseScores (featureVector p) ocean))).length = 9 := by
    simp [smoothedProbs, rawProbs, baseScores]
  have hne : smoothedProbs jm cal (featureVector p).ai_confidence
      (rawProbs (baseScores (featureVector p) ocean)) ≠ [] := by
    intro hc
    rw [hc] at hlen
    simp at hlen
  have hb := normProbs_bounds _ hne (smoothedProbs_pos jm cal _ _ hpos)
  rw [hlen] at hb
  refine ⟨?_, ?_, ?_, ?_⟩
  · rw [hprobs, normProbs_map_fst, smoothedProbs_map_fst, rawProbs_map_fst]
    simp [baseScores, defaultLabels]
  · rw [hprobs]
    exact hb.1
  · rw [hprobs]
    calc |((normProbs _).map Prod.snd).sum - 1| ≤ 9 * (1 / 20000) := hb.2
      _ ≤ 1 / 1000 := by norm_num
  · intro _
    rw [hconf]
    calc roundTo 3 (min 0.999 (0.45 +
          ((sortDesc r.probabilities).headD ("", 0)).2 * 0.45 +
          ((featureVector p).ai_confidence - 0.7) * 0.25))
        ≤ roundTo 3 0.999 := by
          apply roundTo_mono
          exact min_le_left _ _
      _ = 0.999 := by
          rw [roundTo, show (0.999 : ℚ) * 10 ^ 3 = ((999 : ℤ) : ℚ) by norm_num,
            round_intCast]
          norm_num

theorem classifyPlanet_probabilities_valid_witness :
    c3pair.1.probabilities.map Prod.fst = defaultLabels :=
  (classifyPlanet_probabilities_valid c3jm ⟨1, 0⟩ defaultLabels c3p
    c3pair.1 c3pair.2 (fun _ => one_pos) (by rfl)).1

/-- The molecule names of the detected list form a sublist of the
template table's keys. -/
theorem detectedOf_keys_sublist (m : SMath) (cfg : SConfig)
    (nd : List NSample) :
    ((detectedOf m cfg nd).map MolDet.molecule).Sublist
      ((matchTemplates m cfg nd).map Prod.fst) := by
  unfold detectedOf
  generalize matchTemplates m cfg nd = l
  induction l with
  | nil => simp
  | cons a t ih =>
      rw [List.filterMap_cons]
      split
      · exact ih.cons a.1
      · next b heq =>
          have hb : b.molecule = a.1 := by
            by_cases hcond : (a.2.detected && decide (a.2.confidence > 0.2)) = true
            · rw [if_pos hcond] at heq
              cases heq
              rfl
            · rw [if_neg hcond] at heq
              cases heq
          simp only [List.map_cons, hb]
          exact ih.cons₂ a.1

/-- First-match association lookup under distinct keys finds any member. -/
theorem lookup_of_mem_nodup {β : Type} (l : List (String × β)) (k : String)
    (v : β) (hnd : (l.map Prod.fst).Nodup) (hm : (k, v) ∈ l) :
    l.lookup k = some v := by
  induction l with
  | nil => simp at hm
  | cons a t ih =>
      rw [List.map_cons] at hnd
      obtain ⟨hna, hnt⟩ := List.nodup_cons.mp hnd
      rcases List.mem_cons.mp hm with rfl | hmt
      · simp [List.lookup]
      · have hk : k ≠ a.1 := by
          intro hkk
          apply hna
          rw [← hkk]
          exact List.mem_map_of_mem Prod.fst hmt
        have hbeq : (k == a.1) = false := beq_eq_false_iff_ne.mpr hk
        simp only [List.lookup, hbeq, cond_false]
        exact ih hnt hmt

/-- `present[m]` finds a detected molecule's confidence: the upper-cased
keys of `detectedMolecules` are pairwise distinct, so the
last-entry-wins object lookup returns the unique entry. -/
theorem presentLookup_of_mem (m : SMath) (cfg : SConfig) (nd : List NSample)
    {d : MolDet} (hd : d ∈ detectedOf m cfg nd) :
    presentLookup (detectedOf m cfg nd) d.molecule.toUpper =
      some d.confidence := by
  have hsub : (((detectedOf m cfg nd).map MolDet.molecule).map
      String.toUpper).Sublist
      (((matchTemplates m cfg nd).map Prod.fst).map String.toUpper) :=
    List.Sublist.map String.toUpper (detectedOf_keys_sublist m cfg nd)
  have hbig : ((((matchTemplates m cfg nd).map Prod.fst).map
      String.toUpper)).Nodup := by
    have hfst : (matchTemplates m cfg nd).map Prod.fst =
        templateWindows.map Prod.fst := by
      simp [matchTemplates, List.map_map, Function.comp]
    rw [hfst]
    with_unfolding_all decide
  have hnd : (((detectedOf m cfg nd).map MolDet.molecule).map
      String.toUpper).Nodup := List.Nodup.sublist hsub hbig
  unfold presentLookup
  apply lookup_of_mem_nodup
  · have hrw : ((detectedOf m cfg nd).reverse.map
        (fun d => (d.molecule.toUpper, d.confidence))).map Prod.fst =
        (((detectedOf m cfg nd).map MolDet.molecule).map
          String.toUpper).reverse := by
      simp [List.map_reverse, List.map_map, Function.comp]
    rw [hrw]
    exact List.nodup_reverse.mpr hnd
  · exact List.mem_map_of_mem _ (List.mem_reverse.mpr hd)

/-- A molecule in the detected list with confidence above 0.25 makes the
biosignature `has` test true. -/
theorem hasMol_of_mem (m : SMath) (cfg : SConfig) (nd : List NSample)
    (mol : String) {d : MolDet} (hd : d ∈ detectedOf m cfg nd)
    (hname : d.molecule = mol) (hc : d.confidence > 0.25) :
    hasMol (detectedOf m cfg nd) mol = true := by
  have hp := presentLookup_of_mem m cfg nd hd
  rw [hname] at hp
  unfold hasMol
  rw [hp]
  simp only [Bool.and_eq_true, decide_eq_true_eq]
  exact ⟨by positivity, hc⟩

/-- C2: for every non-empty spectral input whose analysis puts both O2 and
CH4 in the detected-molecule list with confidence > 0.25 each,
`analyzeSpectrum` reports biosignature level "High", regardless of
whether the conditions of the later rules also hold. -/
theorem analyzeSpectrum_o2_ch4_high (m : SMath) (cfg : SConfig)
    (data : List Sample) (p : Planet) (hne : data ≠ [])
    (hO2 : ∃ d ∈ (analyzeSpectrum m cfg (some data) p).detectedMolecules,
      d.molecule = "O2" ∧ d.confidence > 0.25)
    (hCH4 : ∃ d ∈ (analyzeSpectrum m cfg (some data) p).detectedMolecules,
      d.molecule = "CH4" ∧ d.confidence > 0.25) :
    (analyzeSpectrum m cfg (some data) p).biosignaturePotential.level =
      "High" := by
  have hlen : ¬(data.length = 0) := by
    simpa [List.length_eq_zero] using hne
  simp only [analyzeSpectrum, if_neg hlen] at hO2 hCH4 ⊢
  obtain ⟨d2, hd2, hd2n, hd2c⟩ := hO2
  obtain ⟨d4, hd4, hd4n, hd4c⟩ := hCH4
  have h2 := hasMol_of_mem m cfg _ "O2" hd2 hd2n hd2c
  have h4 := hasMol_of_mem m cfg _ "CH4" hd4 hd4n hd4c
  show (biosigOf cfg _ _).level = "High"
  rw [biosigOf, if_pos (by rw [h2, h4]; rfl)]

/-- Fixtures for the biosignature-precedence claim: six samples, three in
an O2 window and three in a CH4 window, each with a deep central dip and
SNR 20; `tanh` is instantiated with the identity. -/
def c2m : SMath := { tanh := fun x => x, sin := fun _ => 0 }

def c2samples : List Sample :=
  [⟨688, 1, 20⟩, ⟨690, 1 / 2, 20⟩, ⟨692, 1, 20⟩,
   ⟨781, 1, 20⟩, ⟨783, 1 / 2, 20⟩, ⟨785, 1, 20⟩]

set_option maxRecDepth 100000 in
set_option maxHeartbeats 1000000 in
theorem analyzeSpectrum_o2_ch4_high_witness :
    (analyzeSpectrum c2m {} (some c2samples) {}).biosignaturePotential.level =
      "High" :=
  analyzeSpectrum_o2_ch4_high c2m {} c2samples {}
    (List.cons_ne_nil _ _)
    (by with_unfolding_all decide)
    (by with_unfolding_all decide)

/-- When the head of the pre-blend probability list dominates the rest
(after the `(0.6 + 0.4·aiConf)` blending factor), it still carries the
maximal value after calibration, renormalization and rounding, and the
stable descending sort puts it first (with unit calibration `a=1, b=0`
and a monotone positive `exp`). -/
theorem normProbs_argmax (jm : JsMath) (a : ℚ) (hm : Monotone jm.exp)
    (hpos : ∀ y, 0 < jm.exp y) (nm : String) (v : ℚ)
    (rest : List (String × ℚ))
    (hdom : ∀ x ∈ rest, x.2 * (0.6 + 0.4 * a) ≤ v * (0.6 + 0.4 * a)) :
    ∃ w,
      (sortDesc (normProbs
        (smoothedProbs jm ⟨1, 0⟩ a ((nm, v) :: rest)))).headD ("", 0) =
        (nm, w) ∧
      (nm, w) ∈ normProbs (smoothedProbs jm ⟨1, 0⟩ a ((nm, v) :: rest)) ∧
      ∀ e ∈ normProbs (smoothedProbs jm ⟨1, 0⟩ a ((nm, v) :: rest)),
        e.2 ≤ w := by
  have hposall := smoothedProbs_pos jm ⟨1, 0⟩ a ((nm, v) :: rest) hpos
  have hS : 0 <
      ((smoothedProbs jm ⟨1, 0⟩ a ((nm, v) :: rest)).map Prod.snd).sum := by
    apply List.sum_pos
    · intro x hx
      obtain ⟨e, he, rfl⟩ := List.mem_map.mp hx
      exact hposall e he
    · simp [smoothedProbs]
  have hnp : normProbs (smoothedProbs jm ⟨1, 0⟩ a ((nm, v) :: rest)) =
      (smoothedProbs jm ⟨1, 0⟩ a ((nm, v) :: rest)).map (fun e =>
        (e.1, roundTo 4 (e.2 /
          ((smoothedProbs jm ⟨1, 0⟩ a ((nm, v) :: rest)).map Prod.snd).sum))) := by
    simp only [normProbs, if_neg hS.ne']
  have hsmax : ∀ e ∈ smoothedProbs jm ⟨1, 0⟩ a ((nm, v) :: rest),
      e.2 ≤ calibrate jm ⟨1, 0⟩ (v * (0.6 + 0.4 * a)) := by
    intro e he
    obtain ⟨x, hx, rfl⟩ := List.mem_map.mp he
    rcases List.mem_cons.mp hx with rfl | hxr
    · exact le_refl _
    · exact calibrate_mono_of_unit jm hm hpos (hdom x hxr)
  have hsm : smoothedProbs jm ⟨1, 0⟩ a ((nm, v) :: rest) =
      (nm, calibrate jm ⟨1, 0⟩ (v * (0.6 + 0.4 * a))) ::
        smoothedProbs jm ⟨1, 0⟩ a rest := by
    simp [smoothedProbs]
  refine ⟨roundTo 4 (calibrate jm ⟨1, 0⟩ (v * (0.6 + 0.4 * a)) /
    ((smoothedProbs jm ⟨1, 0⟩ a ((nm, v) :: rest)).map Prod.snd).sum),
    ?_, ?_, ?_⟩
  · have hmax : ∀ e ∈ normProbs (smoothedProbs jm ⟨1, 0⟩ a ((nm, v) :: rest)),
        e.2 ≤ roundTo 4 (calibrate jm ⟨1, 0⟩ (v * (0.6 + 0.4 * a)) /
          ((smoothedProbs jm ⟨1, 0⟩ a ((nm, v) :: rest)).map Prod.snd).sum) := by
      intro e he
      rw [hnp] at he
      obtain ⟨x, hx, rfl⟩ := List.mem_map.mp he
      exact roundTo_mono 4 (div_le_div_of_nonneg_right (hsmax x hx) hS.le)
    conv_lhs => rw [hnp, hsm]
    rw [List.map_cons, sortDesc_head_of_max]
    · rfl
    · intro x hx
      have hx' : x ∈ normProbs (smoothedProbs jm ⟨1, 0⟩ a ((nm, v) :: rest)) := by
        rw [hnp, hsm, List.map_cons]
        exact List.mem_cons_of_mem _ hx
      exact hmax x hx'
  · rw [hnp, hsm, List.map_cons]
    exact List.mem_cons_self _ _
  · intro e he
    rw [hnp] at he
    obtain ⟨x, hx, rfl⟩ := List.mem_map.mp he
    exact roundTo_mono 4 (div_le_div_of_nonneg_right (hsmax x hx) hS.le)

/-- The concrete planet of the Terrestrial scenario. -/
def c7planet : Planet :=
  { name := some "Scenario", mass := .num 1, radius := .num 1,
    temperature := .num 288, orbital_period := .num 365,
    distance := .num 50, atmosphere := .str "N2/O2",
    ai_confidence := .num (9 / 10) }

/-- C7: for the planet `{mass: 1, radius: 1, temperature: 288,
orbital_period: 365, distance: 50, atmosphere: "N2/O2",
ai_confidence: 0.9}` with default calibration `a = 1, b = 0` (and any
monotone, positive-valued `Math.exp`), `classifyPlanet` assigns its
highest probability — and hence its `predictedType` — to "Terrestrial". -/
theorem classifyPlanet_terrestrial_scenario (jm : JsMath)
    (hm : Monotone jm.exp) (hpos : ∀ x, 0 < jm.exp x)
    (r : CResult) (st' : CState)
    (h : classifyPlanet jm (initClassifier ⟨1, 0⟩ defaultLabels) c7planet =
      .ok (r, st')) :
    r.predictedType = "Terrestrial" ∧
    ∃ v, ("Terrestrial", v) ∈ r.probabilities ∧
      ∀ e ∈ r.probabilities, e.2 ≤ v := by
  have hc := classifyPlanet_fresh _ _ _ _ _ _ h
  obtain ⟨ocean, ho, hprobs, _, hpred⟩ :=
    classifyCompute_ok _ _ _ _ _ hc
  have ho2 : oceanBase c7planet.atmosphere = Except.ok ((1 : ℚ) / 50) := by
    with_unfolding_all rfl
  have hoc : ocean = 1 / 50 := by
    rw [ho2] at ho
    injection ho with ho'
    exact ho'.symm
  subst hoc
  have hfeat : featureVector c7planet = ⟨1, 1, 288, 365, 50, 1, 0, 9 / 10⟩ := by
    with_unfolding_all decide
  have hraw : rawProbs (baseScores (featureVector c7planet) (1 / 50)) =
      ("Terrestrial", 60 / 109) ::
      [("Super Earth", 25 / 109), ("Mini-Neptune", 12 / 109),
       ("Gas Giant", 5 / 109), ("Hot Jupiter", 1 / 109),
       ("Ice Giant", 1 / 109), ("Puffy Planet", 1 / 109),
       ("Ocean World", 2 / 109), ("Desert World", 2 / 109)] := by
    rw [hfeat]
    with_unfolding_all decide
  rw [hraw, hfeat] at hprobs
  obtain ⟨w, hhead, hmem, hdomall⟩ := normProbs_argmax jm (9 / 10) hm hpos
    "Terrestrial" (60 / 109)
    [("Super Earth", 25 / 109), ("Mini-Neptune", 12 / 109),
     ("Gas Giant", 5 / 109), ("Hot Jupiter", 1 / 109),
     ("Ice Giant", 1 / 109), ("Puffy Planet", 1 / 109),
     ("Ocean World", 2 / 109), ("Desert World", 2 / 109)]
    (by
      intro x hx
      fin_cases hx <;> norm_num)
  refine ⟨?_, w, ?_, ?_⟩
  · rw [hpred, hprobs, hhead]
  · rw [hprobs]
    exact hmem
  · rw [hprobs]
    exact hdomall

/-- A concrete monotone, positive instantiation of `Math.exp`. -/
def c7jm : JsMath := { exp := fun x => max 1 (x + 1), log := fun _ => 0 }

def c7pair : CResult × CState :=
  match classifyPlanet c7jm (initClassifier ⟨1, 0⟩ defaultLabels) c7planet with
  | .ok pr => pr
  | .error _ => default

theorem classifyPlanet_terrestrial_scenario_witness :
    c7pair.1.predictedType = "Terrestrial" :=
  (classifyPlanet_terrestrial_scenario c7jm
    (fun _ _ hxy => max_le_max le_rfl (by linarith))
    (fun x => lt_of_lt_of_le one_pos (le_max_left 1 (x + 1)))
    c7pair.1 c7pair.2 (by rfl)).1

end ExoVision
